import Mathlib

/-!
Verification of the Whirl batched 2D shape renderer.

The development shallowly embeds the renderer's pure core in Lean:
float-valued shape fields become rationals (`ℚ`), packed colors and GPU
buffer sizes become naturals with explicit `% 2 ^ 32` where the C++ code
stores into 32-bit machine integers, and the GPU side effects of a flush
become an explicit list of operations.  Sources embedded:

* `src/src/renderer/QuadRenderer.cpp`, `src/unnamed/part_013`
  (QuadRenderer: Submit validation, Configure expansion, Draw flush)
* `src/src/renderer/RoundedQuadRenderer.cpp` (RoundedQuadRenderer)
* `src/src/renderer/CircleRenderer.cpp` (CircleRenderer)
* `src/src/renderer/GuiRenderer.cpp` (GuiRenderer facade, Adjust)
* `src/include/renderer/VertexLayout.hpp` (GetStride / GetOffset)
* `src/include/renderer/Color.hpp` (Color::New packing)
* `src/unnamed/part_006`, `src/src/renderer/Shader.cpp`
  (shader source file scanner)
-/

namespace Whirl

/-- Embeds `struct Quad { float x, y; float w, h; uint32_t color; }`
(`src/include/renderer/QuadRenderer.hpp`). -/
structure Quad where
  x : ℚ
  y : ℚ
  w : ℚ
  h : ℚ
  color : Nat
deriving DecidableEq

/-- Embeds `struct QuadVertex { float x, y; uint32_t color; }`. -/
structure QuadVertex where
  x : ℚ
  y : ℚ
  color : Nat
deriving DecidableEq

/-- Embeds `struct RoundedQuad { float x, y; float w, h; float radius; uint32_t color; }`. -/
structure RoundedQuad where
  x : ℚ
  y : ℚ
  w : ℚ
  h : ℚ
  radius : ℚ
  color : Nat
deriving DecidableEq

/-- Embeds `struct RoundedQuadVertex` as populated by
`RoundedQuadRenderer::Configure`: position, quad size, local coordinate,
radius, packed color. -/
structure RoundedQuadVertex where
  x : ℚ
  y : ℚ
  w : ℚ
  h : ℚ
  u : ℚ
  v : ℚ
  radius : ℚ
  color : Nat
deriving DecidableEq

/-- Embeds `struct Circle { float x, y; float radius; uint32_t color; }`. -/
structure Circle where
  x : ℚ
  y : ℚ
  radius : ℚ
  color : Nat
deriving DecidableEq

/-- Embeds `struct CircleVertex { float x, y; float w, h; float u, v; float radius;
uint32_t color; }` — the `w, h` pair holds the per-vertex center written by
`CircleRenderer::Configure`. -/
structure CircleVertex where
  x : ℚ
  y : ℚ
  w : ℚ
  h : ℚ
  u : ℚ
  v : ℚ
  radius : ℚ
  color : Nat
deriving DecidableEq

/-- Default-constructed (value-initialized) `RoundedQuad`, as produced by
`std::vector::resize` in the constructor. -/
def RoundedQuad.zero : RoundedQuad := ⟨0, 0, 0, 0, 0, 0⟩

/-- Default-constructed (value-initialized) `Circle`. -/
def Circle.zero : Circle := ⟨0, 0, 0, 0⟩

/-- Embeds `QuadRenderer::Submit` (`src/unnamed/part_013`, lines 21-36): rejects
negative coordinates and non-positive dimensions, otherwise appends the
quad to the pending list `m_quads`. -/
def QuadRenderer.Submit (pending : List Quad) (quad : Quad) : List Quad :=
  if quad.x < 0 ∨ quad.y < 0 then pending
  else if quad.w ≤ 0 ∨ quad.h ≤ 0 then pending
  else pending ++ [quad]

/-- Embeds `RoundedQuadRenderer::Submit` (`src/src/renderer/RoundedQuadRenderer.cpp`,
lines 45-71).  Note the source only logs a warning for `radius <= 0` without
returning, and then rejects when a side is smaller than twice the radius. -/
def RoundedQuadRenderer.Submit (pending : List RoundedQuad) (quad : RoundedQuad) :
    List RoundedQuad :=
  if quad.x < 0 ∨ quad.y < 0 then pending
  else if quad.w ≤ 0 ∨ quad.h ≤ 0 then pending
  else if quad.w < quad.radius * 2 ∨ quad.h < quad.radius * 2 then pending
  else pending ++ [quad]

/-- Embeds `CircleRenderer::Submit` (`src/src/renderer/CircleRenderer.cpp`,
lines 45-54): the only validated field is the radius. -/
def CircleRenderer.Submit (pending : List Circle) (circle : Circle) : List Circle :=
  if circle.radius ≤ 0 then pending
  else pending ++ [circle]

/-- The four `QuadVertex` records emitted for one quad by
`QuadRenderer::Configure`. -/
def quadVertices (quad : Quad) : List QuadVertex :=
  [⟨quad.x, quad.y, quad.color⟩,
   ⟨quad.x, quad.y + quad.h, quad.color⟩,
   ⟨quad.x + quad.w, quad.y + quad.h, quad.color⟩,
   ⟨quad.x + quad.w, quad.y, quad.color⟩]

/-- The six indices emitted for the shape at position `i` by
`QuadRenderer::Configure`: `const uint32_t base = i * 4;` then
`base+0, base+1, base+2, base+2, base+3, base+0`.  `base` is a multiple of
4 reduced mod `2 ^ 32`, so the subsequent `+ k` (k ≤ 3) cannot wrap. -/
def quadShapeIndices (i : Nat) : List Nat :=
  [i * 4 % 2 ^ 32, i * 4 % 2 ^ 32 + 1, i * 4 % 2 ^ 32 + 2,
   i * 4 % 2 ^ 32 + 2, i * 4 % 2 ^ 32 + 3, i * 4 % 2 ^ 32]

/-- Embeds `QuadRenderer::Configure`: expands every pending quad into 4 vertices
and 6 indices (vertex array, index array). -/
def QuadRenderer.Configure (pending : List Quad) : List QuadVertex × List Nat :=
  (pending.flatMap quadVertices,
   (List.range pending.length).flatMap quadShapeIndices)

/-- The four `RoundedQuadVertex` records emitted for one rounded quad by
`RoundedQuadRenderer::Configure` (lines 80-103). -/
def roundedQuadVertices (quad : RoundedQuad) : List RoundedQuadVertex :=
  [⟨quad.x, quad.y, quad.w, quad.h, 0, quad.h, quad.radius, quad.color⟩,
   ⟨quad.x, quad.y + quad.h, quad.w, quad.h, 0, 0, quad.radius, quad.color⟩,
   ⟨quad.x + quad.w, quad.y + quad.h, quad.w, quad.h, quad.w, 0, quad.radius, quad.color⟩,
   ⟨quad.x + quad.w, quad.y, quad.w, quad.h, quad.w, quad.h, quad.radius, quad.color⟩]

/-- Indices for shape `i` in `RoundedQuadRenderer::Configure` /
`CircleRenderer::Configure`: `const size_t base = i * 4;` and each
`push_back(base + k)` converts to `uint32_t`, i.e. reduces mod `2 ^ 32`. -/
def roundedShapeIndices (i : Nat) : List Nat :=
  [i * 4 % 2 ^ 32, (i * 4 + 1) % 2 ^ 32, (i * 4 + 2) % 2 ^ 32,
   (i * 4 + 2) % 2 ^ 32, (i * 4 + 3) % 2 ^ 32, i * 4 % 2 ^ 32]

/-- Embeds `RoundedQuadRenderer::Configure` (lines 73-124). -/
def RoundedQuadRenderer.Configure (pending : List RoundedQuad) :
    List RoundedQuadVertex × List Nat :=
  (pending.flatMap roundedQuadVertices,
   (List.range pending.length).flatMap roundedShapeIndices)

/-- The four `CircleVertex` records emitted for one circle by
`CircleRenderer::Configure` (lines 56-119): corners of the axis-aligned
square of side `2 * radius` around `(x, y)`, with
`centerX = centerY = radius` stored in the `w, h` fields and
`size = radius * 2` used for the local coordinates. -/
def circleVertices (circle : Circle) : List CircleVertex :=
  [⟨circle.x - circle.radius, circle.y - circle.radius,
    circle.radius, circle.radius, 0, circle.radius * 2, circle.radius, circle.color⟩,
   ⟨circle.x - circle.radius, circle.y + circle.radius,
    circle.radius, circle.radius, 0, 0, circle.radius, circle.color⟩,
   ⟨circle.x + circle.radius, circle.y + circle.radius,
    circle.radius, circle.radius, circle.radius * 2, 0, circle.radius, circle.color⟩,
   ⟨circle.x + circle.radius, circle.y - circle.radius,
    circle.radius, circle.radius, circle.radius * 2, circle.radius * 2,
    circle.radius, circle.color⟩]

/-- Embeds `CircleRenderer::Configure`. -/
def CircleRenderer.Configure (pending : List Circle) :
    List CircleVertex × List Nat :=
  (pending.flatMap circleVertices,
   (List.range pending.length).flatMap roundedShapeIndices)

/-- Embeds `GuiRenderer::DrawCircle(x, y, radius, color)`, which forwards
`{x, y, radius, color}` to `CircleRenderer::Submit`
(`src/src/renderer/GuiRenderer.cpp`, lines 54-57). -/
def GuiRenderer.DrawCircle (pending : List Circle) (x y radius : ℚ) (color : Nat) :
    List Circle :=
  CircleRenderer.Submit pending ⟨x, y, radius, color⟩

/-- The mutable state of one concrete shape renderer that the flush path
touches: the pending-shapes vector and the `uint32_t m_count` member. -/
structure RendererState (σ : Type) where
  pending : List σ
  count : Nat
deriving DecidableEq

/-- One GPU call issued during `Renderer::Draw`, in source order:
vertex-array bind, the two buffer re-uploads performed inside `Configure`
(`glBufferData` with the byte size actually passed), shader bind, projection
upload, the indexed draw call, and the three unbinds. -/
inductive GpuOp
  | bindArray
  | uploadVertexData (bytes : Nat)
  | uploadIndexData (bytes : Nat)
  | useShader
  | setMat4Uniform
  | drawElements (count : Nat)
  | unbindArray
  | unbindVertexBuffer
  | unbindIndexBuffer
deriving DecidableEq

/-- Embeds `Renderer<T>::Draw(projection)` (`src/include/renderer/Renderer.hpp`,
lines 33-54; identically structured in `QuadRenderer::Draw`,
`src/unnamed/part_013` lines 38-59): if `CanRender()` (pending list
non-empty) it binds, re-uploads both buffers via `Configure`, draws
`m_count = indices.size()` elements and clears the pending list; otherwise
it does nothing.  `configure` is the concrete renderer's expansion and
`vertexSize` its `sizeof` vertex struct; the returned list records the GPU
calls made. -/
def Renderer.Draw {σ τ : Type} (configure : List σ → List τ × List Nat)
    (vertexSize : Nat) (s : RendererState σ) : RendererState σ × List GpuOp :=
  if s.pending.isEmpty then (s, [])
  else
    let cfg := configure s.pending
    let count := cfg.2.length % 2 ^ 32
    (⟨[], count⟩,
     [GpuOp.bindArray,
      GpuOp.uploadVertexData (cfg.1.length * vertexSize),
      GpuOp.uploadIndexData (cfg.2.length * 4),
      GpuOp.useShader,
      GpuOp.setMat4Uniform,
      GpuOp.drawElements count,
      GpuOp.unbindArray,
      GpuOp.unbindVertexBuffer,
      GpuOp.unbindIndexBuffer])

/-- State after the `QuadRenderer` constructor (`src/unnamed/part_013`, lines 6-14):
`m_quads.reserve(BASE_SIZE)` only reserves capacity, the pending list is
empty. -/
def QuadRenderer.initialState : RendererState Quad := ⟨[], 0⟩

/-- State after the `RoundedQuadRenderer` constructor
(`src/src/renderer/RoundedQuadRenderer.cpp`, lines 32-35):
`m_quads.resize(BASE_SIZE)` with `BASE_SIZE = 16` value-initializes 16
elements, so the pending list starts with 16 zero quads. -/
def RoundedQuadRenderer.initialState : RendererState RoundedQuad :=
  ⟨List.replicate 16 RoundedQuad.zero, 0⟩

/-- State after the `CircleRenderer` constructor
(`src/src/renderer/CircleRenderer.cpp`, lines 32-35):
`m_circles.resize(BASE_SIZE)` likewise starts with 16 zero circles. -/
def CircleRenderer.initialState : RendererState Circle :=
  ⟨List.replicate 16 Circle.zero, 0⟩

/-- A 4×4 float matrix in glm's column-major storage: field `mCR` is
`m[C][R]` in glm, column `C`, row `R`. -/
structure Mat4 where
  m00 : ℚ
  m01 : ℚ
  m02 : ℚ
  m03 : ℚ
  m10 : ℚ
  m11 : ℚ
  m12 : ℚ
  m13 : ℚ
  m20 : ℚ
  m21 : ℚ
  m22 : ℚ
  m23 : ℚ
  m30 : ℚ
  m31 : ℚ
  m32 : ℚ
  m33 : ℚ
deriving DecidableEq

/-- Embeds `glm::mat4(1.0f)`, the identity matrix. -/
def Mat4.identity : Mat4 :=
  ⟨1, 0, 0, 0, 0, 1, 0, 0, 0, 0, 1, 0, 0, 0, 0, 1⟩

/-- Matrix-vector product `M * (x, y, z, w)` as computed by glm:
`result[r] = Σ_c m[c][r] * v[c]`. -/
def Mat4.apply (M : Mat4) (x y z w : ℚ) : ℚ × ℚ × ℚ × ℚ :=
  (M.m00 * x + M.m10 * y + M.m20 * z + M.m30 * w,
   M.m01 * x + M.m11 * y + M.m21 * z + M.m31 * w,
   M.m02 * x + M.m12 * y + M.m22 * z + M.m32 * w,
   M.m03 * x + M.m13 * y + M.m23 * z + M.m33 * w)

/-- Modelled from the external collaborator glm (only its documented
orthographic-projection formula is used by this repository):
`glm::ortho(l, r, b, t, n, f)` starts from the identity and sets
`m[0][0] = 2/(r-l)`, `m[1][1] = 2/(t-b)`, `m[2][2] = -2/(f-n)`,
`m[3][0] = -(r+l)/(r-l)`, `m[3][1] = -(t+b)/(t-b)`,
`m[3][2] = -(f+n)/(f-n)`. -/
def glmOrtho (l r b t n f : ℚ) : Mat4 :=
  { Mat4.identity with
    m00 := 2 / (r - l)
    m11 := 2 / (t - b)
    m22 := -2 / (f - n)
    m30 := -((r + l) / (r - l))
    m31 := -((t + b) / (t - b))
    m32 := -((f + n) / (f - n)) }

/-- Embeds `GuiRenderer::Adjust(width, height)` (`src/src/renderer/GuiRenderer.cpp`,
lines 66-86): non-positive dimensions are rejected with a warning and the
previous projection is kept; otherwise the stored projection becomes
`glm::ortho(0, width, height, 0, -1, 1)`. -/
def GuiRenderer.Adjust (width height : Int) (current : Mat4) : Mat4 :=
  if width ≤ 0 ∨ height ≤ 0 then current
  else glmOrtho 0 (width : ℚ) (height : ℚ) 0 (-1) 1

/-- Embeds `enum class VertexFormat` (`src/include/renderer/VertexLayout.hpp`):
every scalar kind is 4 bytes. -/
inductive VertexFormat
  | INT
  | UINT
  | FLOAT
deriving DecidableEq

/-- Embeds `struct VertexAttribute { uint32_t size; VertexFormat format; }`. -/
structure VertexAttribute where
  size : Nat
  format : VertexFormat
deriving DecidableEq

/-- Embeds `VertexLayout::GetStride` (`src/include/renderer/VertexLayout.hpp`,
lines 32-39): accumulates `4 * attribute.size` in an `int32_t` and returns
it as `uint32_t` (the final conversion is the `% 2 ^ 32`; the `int32_t`
accumulator is exact below `2 ^ 31`). -/
def VertexLayout.GetStride (attributes : List VertexAttribute) : Nat :=
  (attributes.foldl (fun s a => s + 4 * a.size) 0) % 2 ^ 32

/-- Embeds `VertexLayout::GetOffset(attributes, index)` (lines 41-55): `index` is a
C++ `int`; the guard `index >= attributes.size()` compares it converted to
`size_t` (i.e. reduced mod `2 ^ 64`), and on failure warns and returns the
sentinel `0`.  Otherwise the loop `for (i = 0; i < index; i++)` sums the
sizes of the attributes before `index` (zero iterations when `index ≤ 0`,
which `Int.toNat` reproduces). -/
def VertexLayout.GetOffset (attributes : List VertexAttribute) (index : Int) : Nat :=
  if attributes.length ≤ (index % (2 ^ 64 : Int)).toNat then 0
  else ((attributes.take index.toNat).foldl (fun s a => s + 4 * a.size) 0) % 2 ^ 32

/-- Embeds `Color::New(r, g, b, a)` (`src/include/renderer/Color.hpp`, lines 61-64):
`(r << 24) | (g << 16) | (b << 8) | a` on `uint8_t` channels, producing a
`uint32_t` (hence the `% 2 ^ 32`). -/
def Color.New (r g b a : Nat) : Nat :=
  ((r <<< 24) ||| (g <<< 16) ||| (b <<< 8) ||| a) % 2 ^ 32

/-- The byte-order convention used to unpack a packed color, as in the
vertex stage of `src/assets/shaders/quad.wsh` lines 14-17: byte `k` is
`(packed >> (24 - 8k)) & 0xff`. -/
def Color.unpackByte (packed k : Nat) : Nat :=
  (packed >>> (24 - 8 * k)) &&& 0xff

/-- Errors raised by the shader source scan (`src/unnamed/part_006`,
lines 65-141; `Shader::Load` in `src/src/renderer/Shader.cpp` returns
`false` at the same points). -/
inductive ShaderError
  | unknownTag
  | duplicateVertexTag
  | duplicateFragmentTag
  | missingCode
deriving DecidableEq

/-- The scanner state: the `readingVertex` / `readingFragment` booleans and
the two accumulated sections. -/
structure ParseState where
  readingVertex : Bool
  readingFragment : Bool
  vCode : String
  fCode : String
deriving DecidableEq

/-- Embeds the check `line.find(pat) != std::string::npos`: `pat` occurs as a contiguous
substring of `line`. -/
def hasSub (line pat : String) : Bool :=
  decide (pat.toList <:+: line.toList)

/-- One iteration of the `while (std::getline(...))` loop of the shader
scanner (`src/unnamed/part_006`, lines 78-137), faithful to the branch
order of the source: unknown `#shader` tag check, `#shader vertex` tag,
`#shader fragment` tag, then content accumulation (non-blank lines only)
into whichever section is being read. -/
def processLine (st : ParseState) (line : String) : Except ShaderError ParseState :=
  if hasSub line "#shader" && !hasSub line "vertex" && !hasSub line "fragment" then
    Except.error ShaderError.unknownTag
  else if hasSub line "#shader vertex" then
    if st.readingFragment then
      Except.ok { st with readingFragment := false, readingVertex := true }
    else if st.readingVertex then Except.error ShaderError.duplicateVertexTag
    else Except.ok { st with readingVertex := true }
  else if hasSub line "#shader fragment" then
    if st.readingVertex then
      Except.ok { st with readingVertex := false, readingFragment := true }
    else if st.readingFragment then Except.error ShaderError.duplicateFragmentTag
    else Except.ok { st with readingFragment := true }
  else if st.readingVertex then
    if line ≠ "" then Except.ok { st with vCode := st.vCode ++ line ++ "\n" }
    else Except.ok st
  else if st.readingFragment then
    if line ≠ "" then Except.ok { st with fCode := st.fCode ++ line ++ "\n" }
    else Except.ok st
  else Except.ok st

/-- The whole line scan, starting with both flags cleared and both sections
empty. -/
def Shader.scan (lines : List String) : Except ShaderError ParseState :=
  lines.foldlM processLine ⟨false, false, "", ""⟩

/-- Embeds `Shader::Shader` / `Shader::Load` on an already-read list of lines: runs
the scan, then fails with the "Missing shader code" error if either section
ended up empty (GPU compilation of the two sources is outside the model). -/
def Shader.Load (lines : List String) : Except ShaderError (String × String) :=
  match Shader.scan lines with
  | Except.error e => Except.error e
  | Except.ok st =>
    if st.vCode = "" ∨ st.fCode = "" then Except.error ShaderError.missingCode
    else Except.ok (st.vCode, st.fCode)

theorem length_flatMap_const {α β : Type} (f : α → List β) (k : Nat)
    (hf : ∀ a, (f a).length = k) (l : List α) : (l.flatMap f).length = k * l.length := by
  induction l with
  | nil => simp
  | cons a t ih =>
    rw [List.flatMap_cons, List.length_append, hf, ih, List.length_cons]
    ring

theorem flatMap_range_slice {α : Type} (f : Nat → List α) (k : Nat)
    (hf : ∀ j, (f j).length = k) :
    ∀ n i, i < n → (((List.range n).flatMap f).drop (k * i)).take k = f i := by
  intro n
  induction n with
  | zero => intro i hi; exact absurd hi (Nat.not_lt_zero i)
  | succ m ih =>
    intro i hi
    rw [List.range_succ, List.flatMap_append, List.flatMap_cons, List.flatMap_nil,
      List.append_nil]
    have hlen : ((List.range m).flatMap f).length = k * m := by
      rw [length_flatMap_const f k hf, List.length_range]
    by_cases hc : i < m
    · rw [List.drop_append_of_le_length (by rw [hlen]; exact Nat.mul_le_mul_left k hc.le),
        List.take_append_of_le_length (by
          rw [List.length_drop, hlen]
          have := Nat.mul_le_mul_left k hc
          have h2 : k * i + k = k * (i + 1) := by ring
          have h3 : k * (i + 1) ≤ k * m := Nat.mul_le_mul_left k hc
          omega)]
      exact ih i hc
    · have heq : i = m := Nat.le_antisymm (Nat.lt_succ_iff.mp hi) (Nat.le_of_not_lt hc)
      subst heq
      rw [← hlen, List.drop_left, ← hf i, List.take_length]

theorem foldl_size_sum (l : List VertexAttribute) :
    ∀ s : Nat, l.foldl (fun s a => s + 4 * a.size) s
      = s + (l.map (fun a => 4 * a.size)).sum := by
  induction l with
  | nil => intro s; simp
  | cons a t ih =>
    intro s
    rw [List.foldl_cons, ih, List.map_cons, List.sum_cons]
    omega

theorem hasSub_trans {line pat1 pat2 : String}
    (hsub : pat2.toList <:+: pat1.toList) (h : hasSub line pat1 = true) :
    hasSub line pat2 = true := by
  simp only [hasSub, decide_eq_true_eq] at h ⊢
  exact hsub.trans h

/-- C1: for every renderer state at flush time, `Configure` builds exactly
4 vertices and 6 indices per pending shape, and the 6 indices of the shape
at position `i` are `{0, 1, 2, 2, 3, 0}` offset by the base `4 * i`,
referencing only that shape's 4 vertices — for both the quad and the
rounded-quad renderer (the 2 ^ 29 bound keeps the `uint32_t` index
arithmetic of the source exact). -/
theorem configure_counts_and_winding (qs : List Quad) (rqs : List RoundedQuad)
    (hq : qs.length ≤ 2 ^ 29) (hr : rqs.length ≤ 2 ^ 29) :
    (QuadRenderer.Configure qs).1.length = 4 * qs.length ∧
    (QuadRenderer.Configure qs).2.length = 6 * qs.length ∧
    (∀ i, i < qs.length →
      ((QuadRenderer.Configure qs).2.drop (6 * i)).take 6 =
        [4 * i, 4 * i + 1, 4 * i + 2, 4 * i + 2, 4 * i + 3, 4 * i]) ∧
    (RoundedQuadRenderer.Configure rqs).1.length = 4 * rqs.length ∧
    (RoundedQuadRenderer.Configure rqs).2.length = 6 * rqs.length ∧
    (∀ i, i < rqs.length →
      ((RoundedQuadRenderer.Configure rqs).2.drop (6 * i)).take 6 =
        [4 * i, 4 * i + 1, 4 * i + 2, 4 * i + 2, 4 * i + 3, 4 * i]) := by
  refine ⟨?_, ?_, ?_, ?_, ?_, ?_⟩
  · exact length_flatMap_const quadVertices 4 (fun _ => rfl) qs
  · rw [show (QuadRenderer.Configure qs).2
        = (List.range qs.length).flatMap quadShapeIndices from rfl,
      length_flatMap_const quadShapeIndices 6 (fun _ => rfl), List.length_range]
  · intro i hi
    rw [show (QuadRenderer.Configure qs).2
        = (List.range qs.length).flatMap quadShapeIndices from rfl,
      flatMap_range_slice quadShapeIndices 6 (fun _ => rfl) qs.length i hi]
    have hm : i * 4 % 2 ^ 32 = 4 * i := by omega
    rw [quadShapeIndices, hm]
  · exact length_flatMap_const roundedQuadVertices 4 (fun _ => rfl) rqs
  · rw [show (RoundedQuadRenderer.Configure rqs).2
        = (List.range rqs.length).flatMap roundedShapeIndices from rfl,
      length_flatMap_const roundedShapeIndices 6 (fun _ => rfl), List.length_range]
  · intro i hi
    rw [show (RoundedQuadRenderer.Configure rqs).2
        = (List.range rqs.length).flatMap roundedShapeIndices from rfl,
      flatMap_range_slice roundedShapeIndices 6 (fun _ => rfl) rqs.length i hi]
    have h0 : i * 4 % 2 ^ 32 = 4 * i := by omega
    have h1 : (i * 4 + 1) % 2 ^ 32 = 4 * i + 1 := by omega
    have h2 : (i * 4 + 2) % 2 ^ 32 = 4 * i + 2 := by omega
    have h3 : (i * 4 + 3) % 2 ^ 32 = 4 * i + 3 := by omega
    rw [roundedShapeIndices, h0, h1, h2, h3]

theorem configure_counts_and_winding_witness :
    (QuadRenderer.Configure [⟨0, 0, 1, 1, 0⟩, ⟨1, 2, 3, 4, 5⟩]).1.length
      = 4 * [(⟨0, 0, 1, 1, 0⟩ : Quad), ⟨1, 2, 3, 4, 5⟩].length ∧
    ((QuadRenderer.Configure [⟨0, 0, 1, 1, 0⟩, ⟨1, 2, 3, 4, 5⟩]).2.drop (6 * 1)).take 6
      = [4 * 1, 4 * 1 + 1, 4 * 1 + 2, 4 * 1 + 2, 4 * 1 + 3, 4 * 1] ∧
    ((RoundedQuadRenderer.Configure [⟨0, 0, 10, 10, 2, 0⟩]).2.drop (6 * 0)).take 6
      = [4 * 0, 4 * 0 + 1, 4 * 0 + 2, 4 * 0 + 2, 4 * 0 + 3, 4 * 0] := by
  have h := configure_counts_and_winding [⟨0, 0, 1, 1, 0⟩, ⟨1, 2, 3, 4, 5⟩]
    [⟨0, 0, 10, 10, 2, 0⟩] (by decide) (by decide)
  exact ⟨h.1, h.2.2.1 1 (by decide), h.2.2.2.2.2 0 (by decide)⟩

/-- C2 counterexample: a circle whose position is negative is queued by
`CircleRenderer::Submit`, contradicting the claim that shapes with negative
position are dropped for every shape kind. -/
theorem circle_submit_keeps_negative_position :
    CircleRenderer.Submit [] ⟨-3, -4, 5, 0⟩ = [⟨-3, -4, 5, 0⟩] ∧ (-3 : ℚ) < 0 := by
  constructor
  · rw [CircleRenderer.Submit, if_neg (by norm_num)]
    rfl
  · norm_num

/-- C2 amended: the exact validation actually performed by each `Submit`.
A quad is dropped iff its position is negative or a dimension is
non-positive; a rounded quad is additionally dropped when a side is smaller
than twice the radius, but a non-positive radius alone is only warned
about, not dropped; a circle is dropped iff its radius is non-positive, its
position is never validated.  Every shape passing these checks is appended
to the pending list. -/
theorem submit_validation_characterization :
    (∀ (p : List Quad) (q : Quad),
      (q.x < 0 ∨ q.y < 0 ∨ q.w ≤ 0 ∨ q.h ≤ 0 → QuadRenderer.Submit p q = p) ∧
      (0 ≤ q.x → 0 ≤ q.y → 0 < q.w → 0 < q.h → QuadRenderer.Submit p q = p ++ [q])) ∧
    (∀ (p : List RoundedQuad) (q : RoundedQuad),
      (q.x < 0 ∨ q.y < 0 ∨ q.w ≤ 0 ∨ q.h ≤ 0 ∨ q.w < q.radius * 2 ∨ q.h < q.radius * 2 →
        RoundedQuadRenderer.Submit p q = p) ∧
      (0 ≤ q.x → 0 ≤ q.y → 0 < q.w → 0 < q.h → q.radius * 2 ≤ q.w → q.radius * 2 ≤ q.h →
        RoundedQuadRenderer.Submit p q = p ++ [q])) ∧
    (∀ (p : List Circle) (c : Circle),
      (c.radius ≤ 0 → CircleRenderer.Submit p c = p) ∧
      (0 < c.radius → CircleRenderer.Submit p c = p ++ [c])) := by
  refine ⟨fun p q => ⟨fun hdrop => ?_, fun hx hy hw hh => ?_⟩,
    fun p q => ⟨fun hdrop => ?_, fun hx hy hw hh hrw hrh => ?_⟩,
    fun p c => ⟨fun hdrop => ?_, fun hkeep => ?_⟩⟩
  · rw [QuadRenderer.Submit]
    split_ifs with h1 h2
    · rfl
    · rfl
    · push_neg at h1 h2
      rcases hdrop with h | h | h | h
      · linarith [h1.1]
      · linarith [h1.2]
      · linarith [h2.1]
      · linarith [h2.2]
  · rw [QuadRenderer.Submit, if_neg (by push_neg; constructor <;> linarith),
      if_neg (by push_neg; constructor <;> linarith)]
  · rw [RoundedQuadRenderer.Submit]
    split_ifs with h1 h2 h3
    · rfl
    · rfl
    · rfl
    · push_neg at h1 h2 h3
      rcases hdrop with h | h | h | h | h | h
      · linarith [h1.1]
      · linarith [h1.2]
      · linarith [h2.1]
      · linarith [h2.2]
      · linarith [h3.1]
      · linarith [h3.2]
  · rw [RoundedQuadRenderer.Submit, if_neg (by push_neg; constructor <;> linarith),
      if_neg (by push_neg; constructor <;> linarith),
      if_neg (by push_neg; constructor <;> linarith)]
  · rw [CircleRenderer.Submit, if_pos hdrop]
  · rw [CircleRenderer.Submit, if_neg (by linarith)]

theorem submit_validation_characterization_witness :
    QuadRenderer.Submit [] ⟨-1, 0, 5, 5, 0⟩ = [] ∧
    QuadRenderer.Submit [] ⟨1, 1, 5, 5, 0⟩ = [⟨1, 1, 5, 5, 0⟩] ∧
    RoundedQuadRenderer.Submit [] ⟨0, 0, 4, 4, 0, 7⟩ = [⟨0, 0, 4, 4, 0, 7⟩] ∧
    RoundedQuadRenderer.Submit [] ⟨0, 0, 4, 4, 3, 7⟩ = [] ∧
    CircleRenderer.Submit [] ⟨2, 2, 0, 9⟩ = [] := by
  refine ⟨(submit_validation_characterization.1 [] ⟨-1, 0, 5, 5, 0⟩).1 (by norm_num),
    (submit_validation_characterization.1 [] ⟨1, 1, 5, 5, 0⟩).2
      (by norm_num) (by norm_num) (by norm_num) (by norm_num),
    (submit_validation_characterization.2.1 [] ⟨0, 0, 4, 4, 0, 7⟩).2
      (by norm_num) (by norm_num) (by norm_num) (by norm_num) (by norm_num) (by norm_num),
    (submit_validation_characterization.2.1 [] ⟨0, 0, 4, 4, 3, 7⟩).1 (by norm_num),
    (submit_validation_characterization.2.2 [] ⟨2, 2, 0, 9⟩).1 (by norm_num)⟩

/-- C3: after `Draw(projection)` the pending list is empty; when the
pending list is already empty, `Draw` performs no GPU work and leaves the
state untouched; consequently the second of two consecutive `Draw` calls
with no submissions in between is a complete no-op. -/
theorem draw_flushes_then_noop {σ τ : Type} (configure : List σ → List τ × List Nat)
    (vertexSize : Nat) (s : RendererState σ) :
    (Renderer.Draw configure vertexSize s).1.pending = [] ∧
    (s.pending = [] → Renderer.Draw configure vertexSize s = (s, [])) ∧
    Renderer.Draw configure vertexSize (Renderer.Draw configure vertexSize s).1 =
      ((Renderer.Draw configure vertexSize s).1, []) := by
  have hemp : ∀ t : RendererState σ, t.pending = [] →
      Renderer.Draw configure vertexSize t = (t, []) := by
    intro t ht
    simp [Renderer.Draw, ht]
  have h1 : (Renderer.Draw configure vertexSize s).1.pending = [] := by
    by_cases hc : s.pending.isEmpty
    · simp [Renderer.Draw, hc]
      exact List.isEmpty_iff.mp hc
    · simp [Renderer.Draw, hc]
  exact ⟨h1, hemp s, hemp _ h1⟩

theorem draw_flushes_then_noop_witness :
    Renderer.Draw QuadRenderer.Configure 12 QuadRenderer.initialState
      = (QuadRenderer.initialState, []) :=
  (draw_flushes_then_noop QuadRenderer.Configure 12 QuadRenderer.initialState).2.1 rfl

/-- C4 (code bug): the rounded-quad and circle renderer constructors call
`resize(BASE_SIZE)` where the quad renderer calls `reserve`, so their
pending lists hold 16 value-initialized shapes immediately after
construction and a first `Draw` with no prior submissions does issue GPU
work; only the quad renderer starts with an empty pending list as the
claim (and the spec's shape-record lifetime rule) states. -/
theorem constructed_pending_not_empty :
    RoundedQuadRenderer.initialState.pending.length = 16 ∧
    CircleRenderer.initialState.pending.length = 16 ∧
    (Renderer.Draw RoundedQuadRenderer.Configure 32 RoundedQuadRenderer.initialState).2
      ≠ [] ∧
    (Renderer.Draw CircleRenderer.Configure 32 CircleRenderer.initialState).2 ≠ [] ∧
    QuadRenderer.initialState.pending = [] := by
  refine ⟨rfl, rfl, ?_, ?_, rfl⟩ <;>
    simp [Renderer.Draw, RoundedQuadRenderer.initialState, CircleRenderer.initialState]

/-- C5: `Adjust(width, height)` with positive dimensions stores
`glm::ortho(0, width, height, 0, -1, 1)`, which maps `(0, 0)` to the
top-left clip corner `(-1, 1)` and `(width, height)` to the bottom-right
`(1, -1)`; non-positive dimensions leave the previously active projection
unchanged (with a logged warning). -/
theorem adjust_projection (w h : Int) (m : Mat4) :
    (w ≤ 0 ∨ h ≤ 0 → GuiRenderer.Adjust w h m = m) ∧
    (0 < w → 0 < h →
      GuiRenderer.Adjust w h m = glmOrtho 0 (w : ℚ) (h : ℚ) 0 (-1) 1 ∧
      (GuiRenderer.Adjust w h m).apply 0 0 0 1 = (-1, 1, 0, 1) ∧
      (GuiRenderer.Adjust w h m).apply (w : ℚ) (h : ℚ) 0 1 = (1, -1, 0, 1)) := by
  constructor
  · intro hbad
    rw [GuiRenderer.Adjust, if_pos hbad]
  · intro hw hh
    have hwq : (w : ℚ) ≠ 0 := by
      have : (0 : ℚ) < (w : ℚ) := by exact_mod_cast hw
      linarith
    have hhq : (h : ℚ) ≠ 0 := by
      have : (0 : ℚ) < (h : ℚ) := by exact_mod_cast hh
      linarith
    have hadj : GuiRenderer.Adjust w h m = glmOrtho 0 (w : ℚ) (h : ℚ) 0 (-1) 1 := by
      rw [GuiRenderer.Adjust, if_neg (by push_neg; exact ⟨hw, hh⟩)]
    refine ⟨hadj, ?_, ?_⟩
    · rw [hadj]
      simp only [glmOrtho, Mat4.identity, Mat4.apply, Prod.mk.injEq]
      refine ⟨?_, ?_, ?_, ?_⟩ <;> field_simp
    · rw [hadj]
      simp only [glmOrtho, Mat4.identity, Mat4.apply, Prod.mk.injEq]
      refine ⟨?_, ?_, ?_, ?_⟩ <;> field_simp <;> ring_nf <;>
        (try simp [mul_inv_cancel₀ hwq, mul_inv_cancel₀ hhq]) <;> (try norm_num)

theorem adjust_projection_witness :
    GuiRenderer.Adjust 1280 720 Mat4.identity
      = glmOrtho 0 ((1280 : Int) : ℚ) ((720 : Int) : ℚ) 0 (-1) 1 ∧
    (GuiRenderer.Adjust 1280 720 Mat4.identity).apply 0 0 0 1 = (-1, 1, 0, 1) ∧
    (GuiRenderer.Adjust 1280 720 Mat4.identity).apply
      ((1280 : Int) : ℚ) ((720 : Int) : ℚ) 0 1 = (1, -1, 0, 1) := by
  have hth := (adjust_projection 1280 720 Mat4.identity).2 (by decide) (by decide)
  exact ⟨hth.1, hth.2.1, hth.2.2⟩

/-- C6: the shader scan fails on a repeated tag of the kind already being
read, and on a `#shader` tag naming neither vertex nor fragment; a tag of
the other kind while reading switches sections without error; and a scan
that leaves either section empty (e.g. a vertex-only file) makes the load
fail with the missing-shader-code error. -/
theorem shader_parse_errors :
    (∀ (st : ParseState) (line : String),
      hasSub line "#shader" = true → hasSub line "vertex" = false →
      hasSub line "fragment" = false →
      processLine st line = Except.error ShaderError.unknownTag) ∧
    (∀ (st : ParseState) (line : String),
      hasSub line "#shader vertex" = true → st.readingVertex = true →
      st.readingFragment = false →
      processLine st line = Except.error ShaderError.duplicateVertexTag) ∧
    (∀ (st : ParseState) (line : String),
      hasSub line "#shader fragment" = true → hasSub line "#shader vertex" = false →
      st.readingFragment = true → st.readingVertex = false →
      processLine st line = Except.error ShaderError.duplicateFragmentTag) ∧
    (∀ (st : ParseState) (line : String),
      hasSub line "#shader vertex" = true → st.readingFragment = true →
      processLine st line
        = Except.ok { st with readingFragment := false, readingVertex := true }) ∧
    (∀ (st : ParseState) (line : String),
      hasSub line "#shader fragment" = true → hasSub line "#shader vertex" = false →
      st.readingVertex = true →
      processLine st line
        = Except.ok { st with readingVertex := false, readingFragment := true }) ∧
    (∀ (lines : List String) (st : ParseState),
      Shader.scan lines = Except.ok st → st.vCode = "" ∨ st.fCode = "" →
      Shader.Load lines = Except.error ShaderError.missingCode) := by
  refine ⟨fun st line h1 h2 h3 => ?_, fun st line htag hrv hrf => ?_,
    fun st line htag hnv hrf hrv => ?_, fun st line htag hrf => ?_,
    fun st line htag hnv hrv => ?_, fun lines st hscan hempty => ?_⟩
  · simp [processLine, h1, h2, h3]
  · have hv : hasSub line "vertex" = true := hasSub_trans (by decide) htag
    simp [processLine, htag, hv, hrv, hrf]
  · have hf : hasSub line "fragment" = true := hasSub_trans (by decide) htag
    simp [processLine, htag, hnv, hf, hrf, hrv]
  · have hv : hasSub line "vertex" = true := hasSub_trans (by decide) htag
    simp [processLine, htag, hv, hrf]
  · have hf : hasSub line "fragment" = true := hasSub_trans (by decide) htag
    simp [processLine, htag, hnv, hf, hrv]
  · simp only [Shader.Load, hscan]
    rw [if_pos hempty]

theorem shader_parse_errors_witness :
    processLine ⟨true, false, "", ""⟩ "#shader vertex"
      = Except.error ShaderError.duplicateVertexTag ∧
    processLine ⟨false, true, "x", ""⟩ "#shader vertex"
      = Except.ok ⟨true, false, "x", ""⟩ ∧
    processLine ⟨false, false, "", ""⟩ "#shader geometry"
      = Except.error ShaderError.unknownTag ∧
    Shader.Load ["#shader vertex", "void main"]
      = Except.error ShaderError.missingCode := by
  refine ⟨shader_parse_errors.2.1 ⟨true, false, "", ""⟩ "#shader vertex"
      (by decide) rfl rfl,
    shader_parse_errors.2.2.2.1 ⟨false, true, "x", ""⟩ "#shader vertex"
      (by decide) rfl,
    shader_parse_errors.1 ⟨false, false, "", ""⟩ "#shader geometry"
      (by decide) (by decide) (by decide),
    shader_parse_errors.2.2.2.2.2 ["#shader vertex", "void main"]
      ⟨true, false, "void main\n", ""⟩ rfl (Or.inr rfl)⟩

/-- C10: in the shader scan, blank lines are discarded wherever they occur;
while no `#shader` tag has been seen both sections stay untouched on any
successfully processed line; and a non-blank line recognized as no tag is
appended verbatim plus a trailing newline to exactly the section being
read. -/
theorem parser_skips_blank_and_preamble :
    (∀ st : ParseState, processLine st "" = Except.ok st) ∧
    (∀ (st st2 : ParseState) (line : String),
      st.readingVertex = false → st.readingFragment = false →
      processLine st line = Except.ok st2 →
      st2.vCode = st.vCode ∧ st2.fCode = st.fCode) ∧
    (∀ (st : ParseState) (line : String),
      st.readingVertex = true →
      (hasSub line "#shader" && !hasSub line "vertex" && !hasSub line "fragment") = false →
      hasSub line "#shader vertex" = false → hasSub line "#shader fragment" = false →
      line ≠ "" →
      processLine st line = Except.ok { st with vCode := st.vCode ++ line ++ "\n" }) ∧
    (∀ (st : ParseState) (line : String),
      st.readingVertex = false → st.readingFragment = true →
      (hasSub line "#shader" && !hasSub line "vertex" && !hasSub line "fragment") = false →
      hasSub line "#shader vertex" = false → hasSub line "#shader fragment" = false →
      line ≠ "" →
      processLine st line = Except.ok { st with fCode := st.fCode ++ line ++ "\n" }) := by
  refine ⟨fun st => ?_, fun st st2 line hrv hrf hok => ?_,
    fun st line hrv hc1 hc2 hc3 hne => ?_, fun st line hrv hrf hc1 hc2 hc3 hne => ?_⟩
  · have h1 : hasSub "" "#shader" = false := by decide
    have h2 : hasSub "" "#shader vertex" = false := by decide
    have h3 : hasSub "" "#shader fragment" = false := by decide
    simp [processLine, h1, h2, h3]
  · cases hc1 : (hasSub line "#shader" && !hasSub line "vertex" && !hasSub line "fragment") <;>
      cases hc2 : hasSub line "#shader vertex" <;>
      cases hc3 : hasSub line "#shader fragment" <;>
      simp [processLine, hc1, hc2, hc3, hrv, hrf] at hok <;>
      simp [← hok]
  · simp [processLine, hc1, hc2, hc3, hrv, hne]
  · simp [processLine, hc1, hc2, hc3, hrv, hrf, hne]

theorem parser_skips_blank_and_preamble_witness :
    processLine ⟨true, false, "A\n", ""⟩ "" = Except.ok ⟨true, false, "A\n", ""⟩ ∧
    processLine ⟨true, false, "A\n", ""⟩ "B" = Except.ok ⟨true, false, "A\nB\n", ""⟩ ∧
    processLine ⟨false, true, "", "x\n"⟩ "y z" = Except.ok ⟨false, true, "", "x\ny z\n"⟩ := by
  exact ⟨parser_skips_blank_and_preamble.1 ⟨true, false, "A\n", ""⟩,
    parser_skips_blank_and_preamble.2.2.1 ⟨true, false, "A\n", ""⟩ "B"
      rfl (by decide) (by decide) (by decide) (by decide),
    parser_skips_blank_and_preamble.2.2.2 ⟨false, true, "", "x\n"⟩ "y z"
      rfl rfl (by decide) (by decide) (by decide) (by decide)⟩

/-- C7: for every vertex layout, `GetStride` is the sum of
`4 * componentCount` over all attributes and `GetOffset i` the same sum
over the attributes before `i` (offset 0 is 0); an out-of-range index
(negative, via the `size_t` conversion of the C++ `int`, or at least the
attribute count) yields the sentinel 0.  The bounds keep the 32-bit
accumulator and the `int` index of the source exact. -/
theorem vertex_layout_stride_offset (attributes : List VertexAttribute) :
    ((attributes.map fun a => 4 * a.size).sum < 2 ^ 31 →
      VertexLayout.GetStride attributes = (attributes.map fun a => 4 * a.size).sum) ∧
    (∀ i : Nat, i < attributes.length → attributes.length ≤ 2 ^ 31 →
      ((attributes.take i).map fun a => 4 * a.size).sum < 2 ^ 31 →
      VertexLayout.GetOffset attributes (i : Int)
        = ((attributes.take i).map fun a => 4 * a.size).sum) ∧
    VertexLayout.GetOffset attributes 0 = 0 ∧
    (∀ index : Int, -(2 ^ 31) ≤ index → index < 2 ^ 31 → attributes.length ≤ 2 ^ 31 →
      index < 0 ∨ (attributes.length : Int) ≤ index →
      VertexLayout.GetOffset attributes index = 0) := by
  refine ⟨fun hs => ?_, fun i hi hlen hsum => ?_, ?_, fun index h1 h2 h3 h4 => ?_⟩
  · rw [VertexLayout.GetStride, foldl_size_sum]
    omega
  · rw [VertexLayout.GetOffset, if_neg (by omega)]
    have htn : (i : Int).toNat = i := Int.toNat_natCast i
    rw [htn, foldl_size_sum]
    omega
  · rw [VertexLayout.GetOffset]
    split
    · rfl
    · simp
  · rw [VertexLayout.GetOffset, if_pos (by omega)]

theorem vertex_layout_stride_offset_witness :
    VertexLayout.GetStride
      [⟨2, VertexFormat.FLOAT⟩, ⟨2, VertexFormat.FLOAT⟩, ⟨2, VertexFormat.FLOAT⟩,
       ⟨1, VertexFormat.FLOAT⟩, ⟨1, VertexFormat.UINT⟩] = 32 ∧
    VertexLayout.GetOffset
      [⟨2, VertexFormat.FLOAT⟩, ⟨2, VertexFormat.FLOAT⟩, ⟨2, VertexFormat.FLOAT⟩,
       ⟨1, VertexFormat.FLOAT⟩, ⟨1, VertexFormat.UINT⟩] 4 = 28 ∧
    VertexLayout.GetOffset
      [⟨2, VertexFormat.FLOAT⟩, ⟨2, VertexFormat.FLOAT⟩, ⟨2, VertexFormat.FLOAT⟩,
       ⟨1, VertexFormat.FLOAT⟩, ⟨1, VertexFormat.UINT⟩] 0 = 0 ∧
    VertexLayout.GetOffset
      [⟨2, VertexFormat.FLOAT⟩, ⟨2, VertexFormat.FLOAT⟩, ⟨2, VertexFormat.FLOAT⟩,
       ⟨1, VertexFormat.FLOAT⟩, ⟨1, VertexFormat.UINT⟩] 7 = 0 ∧
    VertexLayout.GetOffset
      [⟨2, VertexFormat.FLOAT⟩, ⟨2, VertexFormat.FLOAT⟩, ⟨2, VertexFormat.FLOAT⟩,
       ⟨1, VertexFormat.FLOAT⟩, ⟨1, VertexFormat.UINT⟩] (-2) = 0 := by
  have hth := vertex_layout_stride_offset
    [⟨2, VertexFormat.FLOAT⟩, ⟨2, VertexFormat.FLOAT⟩, ⟨2, VertexFormat.FLOAT⟩,
     ⟨1, VertexFormat.FLOAT⟩, ⟨1, VertexFormat.UINT⟩]
  exact ⟨(hth.1 (by decide)).trans (by decide),
    (hth.2.1 4 (by decide) (by decide) (by decide)).trans (by decide),
    hth.2.2.1,
    hth.2.2.2 7 (by decide) (by decide) (by decide) (Or.inr (by decide)),
    hth.2.2.2 (-2) (by decide) (by decide) (by decide) (Or.inl (by decide))⟩

/-- C8: packing four channel bytes with `Color::New` (red in the most
significant byte down to alpha in the least) and unpacking with the
shader's byte-order convention recovers the original bytes exactly. -/
theorem color_roundtrip (r g b a : Nat) (hr : r < 256) (hg : g < 256)
    (hb : b < 256) (ha : a < 256) :
    Color.unpackByte (Color.New r g b a) 0 = r ∧
    Color.unpackByte (Color.New r g b a) 1 = g ∧
    Color.unpackByte (Color.New r g b a) 2 = b ∧
    Color.unpackByte (Color.New r g b a) 3 = a := by
  have hval : Color.New r g b a = r * 2 ^ 24 + g * 2 ^ 16 + b * 2 ^ 8 + a := by
    rw [Color.New, Nat.shiftLeft_eq, Nat.shiftLeft_eq, Nat.shiftLeft_eq,
      Nat.lor_assoc, Nat.lor_assoc]
    have h1 : b * 2 ^ 8 ||| a = b * 2 ^ 8 + a := by
      rw [Nat.mul_comm b (2 ^ 8)]
      exact (Nat.mul_add_lt_is_or ha b).symm
    have h2 : g * 2 ^ 16 ||| (b * 2 ^ 8 + a) = g * 2 ^ 16 + (b * 2 ^ 8 + a) := by
      rw [Nat.mul_comm g (2 ^ 16)]
      exact (Nat.mul_add_lt_is_or (by omega) g).symm
    have h3 : r * 2 ^ 24 ||| (g * 2 ^ 16 + (b * 2 ^ 8 + a))
        = r * 2 ^ 24 + (g * 2 ^ 16 + (b * 2 ^ 8 + a)) := by
      rw [Nat.mul_comm r (2 ^ 24)]
      exact (Nat.mul_add_lt_is_or (by omega) r).symm
    rw [h1, h2, h3]
    omega
  have hmask : (0xff : Nat) = 2 ^ 8 - 1 := rfl
  refine ⟨?_, ?_, ?_, ?_⟩ <;>
    rw [Color.unpackByte, hval, Nat.shiftRight_eq_div_pow, hmask,
      Nat.and_pow_two_sub_one_eq_mod] <;>
    omega

theorem color_roundtrip_witness :
    Color.unpackByte (Color.New 18 52 86 255) 0 = 18 ∧
    Color.unpackByte (Color.New 18 52 86 255) 1 = 52 ∧
    Color.unpackByte (Color.New 18 52 86 255) 2 = 86 ∧
    Color.unpackByte (Color.New 18 52 86 255) 3 = 255 :=
  color_roundtrip 18 52 86 255 (by decide) (by decide) (by decide) (by decide)

/-- C9: for every circle accepted by `Submit` (positive radius), the four
emitted vertices are exactly the corners of the axis-aligned square from
`(x - r, y - r)` to `(x + r, y + r)` — side length `2r`, per-vertex center
fields `(r, r)` — and `DrawCircle` forwards its `(x, y)` as the circle's
center to `Submit`, which appends the shape. -/
theorem circle_center_square (c : Circle) (hrad : 0 < c.radius) :
    ((circleVertices c).map fun v => (v.x, v.y)) =
      [(c.x - c.radius, c.y - c.radius), (c.x - c.radius, c.y + c.radius),
       (c.x + c.radius, c.y + c.radius), (c.x + c.radius, c.y - c.radius)] ∧
    (∀ v ∈ circleVertices c, v.w = c.radius ∧ v.h = c.radius) ∧
    (c.x + c.radius) - (c.x - c.radius) = 2 * c.radius ∧
    (∀ pending, CircleRenderer.Submit pending c = pending ++ [c]) ∧
    (∀ (pending : List Circle) (x y radius : ℚ) (color : Nat),
      GuiRenderer.DrawCircle pending x y radius color
        = CircleRenderer.Submit pending ⟨x, y, radius, color⟩) := by
  refine ⟨rfl, ?_, by ring, fun pending => ?_, fun _ _ _ _ _ => rfl⟩
  · intro v hv
    simp only [circleVertices, List.mem_cons, List.not_mem_nil, or_false] at hv
    rcases hv with h | h | h | h <;> subst h <;> exact ⟨rfl, rfl⟩
  · rw [CircleRenderer.Submit, if_neg (by linarith)]

theorem circle_center_square_witness :
    ((circleVertices ⟨10, 20, 5, 0⟩).map fun v => (v.x, v.y)) =
      [((5 : ℚ), (15 : ℚ)), (5, 25), (15, 25), (15, 15)] ∧
    CircleRenderer.Submit [] ⟨10, 20, 5, 0⟩ = [⟨10, 20, 5, 0⟩] := by
  have hth := circle_center_square ⟨10, 20, 5, 0⟩ (by norm_num)
  exact ⟨hth.1.trans (by norm_num), hth.2.2.2.1 []⟩

end Whirl
